import Mathlib

/-!
Verification of the `jagain` Go library (`Option[T]` / `Result[T]` containers).

Shallow embedding conventions:
* A Go pointer `*T` is modelled by `Ptr T` (Lean's `Option`): `none` is `nil`,
  `some v` is a pointer whose pointee holds `v` (value-level view).
* A Go `error` interface value is modelled by `GoError := Ptr String`:
  `none` is the `nil` error, `some s` a non-nil error whose `Error()` / `%v`
  rendering is `s`.
* A Go `panic` is modelled by the `Except PanicVal` monad: `.error p` is a
  panic carrying `p`, `.ok v` a normal return of `v`.  Functions of the
  source that may panic (by an explicit `panic(...)` call or by dereferencing
  a possibly-nil stored pointer `*r.value`) return `Except PanicVal _`.
* `encoding/json` is abstracted by a `Codec T` record (an encoder and a
  decoder supplied by the element type); `json.Marshal` applied to a `*T`
  encodes `nil` as `null` and otherwise encodes the pointee.
* For the pointer-aliasing part of `ToPtr`, a second, heap-level embedding
  (`HOption`, heap = `List T`, pointer = index) is used, since value
  semantics cannot express "mutation through the returned pointer".
-/

namespace Jagain

/-- A Go pointer `*T`: `none` is `nil`. (Alias taken before `Jagain.Option`
shadows the root `Option`.) -/
abbrev Ptr (T : Type) := Option T

/-- Alias for the string type, usable inside declarations of the `Option`
namespace where the short name `String` is shadowed. -/
abbrev Str := String

/-- A Go `error` interface value: `none` is the `nil` error, `some s` a
non-nil error rendering as `s`. -/
abbrev GoError := Ptr String

/-- Go's `fmt` `%v` rendering of an `error` value (`<nil>` for the nil error). -/
def renderErr : GoError → String
  | none => "<nil>"
  | some s => s

/-- The value carried by a Go `panic`. -/
inductive PanicVal where
  /-- runtime fault from dereferencing a nil pointer -/
  | nilDeref : PanicVal
  /-- `panic` called with a string (e.g. built by `fmt.Sprintf`) -/
  | str : String → PanicVal
  /-- `panic` called with a non-nil error value rendering as the string
  (e.g. `panic(ErrNoValue)` in `Option.Unwrap`) -/
  | errVal : String → PanicVal
deriving DecidableEq, Repr

/-- Dereference a Go pointer: `*p` panics when `p` is nil. -/
def deref {T : Type} (p : Ptr T) : Except PanicVal T :=
  match p with
  | none => .error .nilDeref
  | some v => .ok v

/-!  ### `Result[T]`  (src/result.go)  -/

/-- Model of the `Result[T]` struct: fields `value *T`, `err error`, `valid bool`. -/
structure Result (T : Type) where
  value : Ptr T
  err : GoError
  valid : Bool
deriving DecidableEq, Repr

/-- Constructor `Ok` creates a Result containing a success value (`&value` on a fresh copy). -/
def Ok {T : Type} (value : T) : Result T :=
  { value := some value, err := none, valid := true }

/-- Constructor `Err` creates a Result containing an error (`value: nil, err: err, valid: false`). -/
def Err {T : Type} (err : GoError) : Result T :=
  { value := none, err := err, valid := false }

/-- Method `IsOk` returns `r.valid`. -/
def Result.IsOk {T : Type} (r : Result T) : Bool :=
  r.valid

/-- Method `IsErr` returns `!r.valid`. -/
def Result.IsErr {T : Type} (r : Result T) : Bool :=
  !r.valid

/-- Method `Unwrap`: panics with `"called unwrap on an error result: %v"` of the
error when not valid, else returns `*r.value`. -/
def Result.Unwrap {T : Type} (r : Result T) : Except PanicVal T :=
  if !r.valid then
    .error (.str ("called unwrap on an error result: " ++ renderErr r.err))
  else
    deref r.value

/-- Method `UnwrapOr`: the default when not valid, else `*r.value`. -/
def Result.UnwrapOr {T : Type} (r : Result T) (defaultValue : T) : Except PanicVal T :=
  if !r.valid then .ok defaultValue else deref r.value

/-- Method `UnwrapOrElse`: `f(r.err)` when not valid, else `*r.value`. -/
def Result.UnwrapOrElse {T : Type} (r : Result T) (f : GoError → T) : Except PanicVal T :=
  if !r.valid then .ok (f r.err) else deref r.value

/-- Method `UnwrapErr`: panics with `"called unwrap_err on an ok result"` when valid,
else returns `r.err`. -/
def Result.UnwrapErr {T : Type} (r : Result T) : Except PanicVal GoError :=
  if r.valid then .error (.str "called unwrap_err on an ok result") else .ok r.err

/-- Method `Map`: returns `r` unchanged when not valid, else `Ok(f(*r.value))`. -/
def Result.Map {T : Type} (r : Result T) (f : T → T) : Except PanicVal (Result T) :=
  if !r.valid then .ok r else (deref r.value).map (fun v => Ok (f v))

/-- Free function `MapTo`: `Err[U](r.err)` when not valid, else `Ok(f(*r.value))`. -/
def MapTo {T U : Type} (r : Result T) (f : T → U) : Except PanicVal (Result U) :=
  if !r.valid then .ok (Err r.err) else (deref r.value).map (fun v => Ok (f v))

/-- Method `MapErr`: returns `r` unchanged when valid, else `Err[T](f(r.err))`. -/
def Result.MapErr {T : Type} (r : Result T) (f : GoError → GoError) : Result T :=
  if r.valid then r else Err (f r.err)

/-- Method `FlatMap`: returns `r` unchanged when not valid, else `f(*r.value)`. -/
def Result.FlatMap {T : Type} (r : Result T) (f : T → Result T) : Except PanicVal (Result T) :=
  if !r.valid then .ok r else (deref r.value).map f

/-- Free function `FlatMapTo`: `Err[U](r.err)` when not valid, else `f(*r.value)`. -/
def FlatMapTo {T U : Type} (r : Result T) (f : T → Result U) : Except PanicVal (Result U) :=
  if !r.valid then .ok (Err r.err) else (deref r.value).map f

/-- Method `Match`: applies `ok(*r.value)` when valid, else `err(r.err)`. -/
def Result.Match {T : Type} (r : Result T) (ok : T → T) (err : GoError → T) :
    Except PanicVal T :=
  if r.valid then (deref r.value).map ok else .ok (err r.err)

/-- Free function `MatchTo`: `ok(*r.value)` when valid, else `err(r.err)`. -/
def MatchTo {T U : Type} (r : Result T) (ok : T → U) (err : GoError → U) :
    Except PanicVal U :=
  if r.valid then (deref r.value).map ok else .ok (err r.err)

/-!  ### `Option[T]`  (src; the Option part of the library)  -/

/-- Model of the `Option[T]` struct: fields `value *T`, `valid bool`. -/
structure Option (T : Type) where
  value : Ptr T
  valid : Bool
deriving DecidableEq, Repr

/-- Constructor `Some` creates an Option containing a value (`&value` on a fresh copy). -/
def Some {T : Type} (value : T) : Option T :=
  { value := some value, valid := true }

/-- Constructor `None` creates an Option with no value (`value: nil, valid: false`). -/
def None (T : Type) : Option T :=
  { value := none, valid := false }

/-- The zero value of `Option[T]` (a declared-but-unassigned `var o Option[T]`):
all fields at their Go zero values (`value = nil`, `valid = false`). -/
def zeroOption (T : Type) : Option T :=
  { value := none, valid := false }

/-- Function `FromPtr`: yields `None` for a nil pointer, else `Some(*ptr)`. -/
def FromPtr {T : Type} (ptr : Ptr T) : Option T :=
  match ptr with
  | none => None T
  | some v => Some v

/-- Method `ToPtr` (value-level view): nil when no value; else a pointer to a fresh
copy `v := *o.value; return &v`, which at the value level holds the same value. -/
def Option.ToPtr {T : Type} (o : Option T) : Except PanicVal (Ptr T) :=
  if !o.valid then .ok none else (deref o.value).map some

/-- Method `IsSome` returns `o.valid`. -/
def Option.IsSome {T : Type} (o : Option T) : Bool :=
  o.valid

/-- Method `IsNone` returns `!o.valid`. -/
def Option.IsNone {T : Type} (o : Option T) : Bool :=
  !o.valid

/-- Method `Unwrap`: panics with `ErrNoValue` (message "option contains no value")
when not valid, else returns `*o.value`. -/
def Option.Unwrap {T : Type} (o : Option T) : Except PanicVal T :=
  if !o.valid then .error (.errVal "option contains no value") else deref o.value

/-- Method `UnwrapOr`: the default when not valid, else `*o.value`. -/
def Option.UnwrapOr {T : Type} (o : Option T) (defaultValue : T) : Except PanicVal T :=
  if !o.valid then .ok defaultValue else deref o.value

/-- Method `UnwrapOrElse`: applies `f()` when not valid, else `*o.value`. -/
def Option.UnwrapOrElse {T : Type} (o : Option T) (f : Unit → T) : Except PanicVal T :=
  if !o.valid then .ok (f ()) else deref o.value

/-- Method `Map`: returns `o` unchanged when not valid, else `Some(f(*o.value))`. -/
def Option.Map {T : Type} (o : Option T) (f : T → T) : Except PanicVal (Option T) :=
  if !o.valid then .ok o else (deref o.value).map (fun v => Some (f v))

/-- Method `FlatMap`: returns `o` unchanged when not valid, else `f(*o.value)`. -/
def Option.FlatMap {T : Type} (o : Option T) (f : T → Option T) :
    Except PanicVal (Option T) :=
  if !o.valid then .ok o else (deref o.value).map f

/-- Method `Match`: applies `some(*o.value)` when valid, else `none()`. -/
def Option.Match {T : Type} (o : Option T) (s : T → T) (n : Unit → T) :
    Except PanicVal T :=
  if o.valid then (deref o.value).map s else .ok (n ())

/-- Method `ToResult`: yields `Err[T](err)` when not valid, else `Ok(*o.value)`. -/
def Option.ToResult {T : Type} (o : Option T) (err : GoError) :
    Except PanicVal (Result T) :=
  if !o.valid then .ok (Err err) else (deref o.value).map Ok

/-- Method `ToOption` on a Result: `None` when not valid, else `Some(*r.value)`. -/
def Result.ToOption {T : Type} (r : Result T) : Except PanicVal (Option T) :=
  if !r.valid then .ok (None T) else (deref r.value).map Some

/-!  ### JSON layer (`encoding/json` abstracted as a codec on `T`)  -/

/-- A JSON encoding of `T`: `enc` models `json.Marshal` on a `T` and `dec`
models `json.Unmarshal` of a byte string into a `T` (`.error` = decode error,
modelled by the error's rendering). -/
structure Codec (T : Type) where
  enc : T → String
  dec : String → Except String T

/-- Model of `json.Marshal` applied to a `*T`: `nil` encodes as `null`, otherwise the
pointee is encoded. -/
def encPtr {T : Type} (c : Codec T) (p : Ptr T) : String :=
  match p with
  | none => "null"
  | some v => c.enc v

/-- Method `MarshalJSON`: yields `[]byte("null")` when not valid, else `json.Marshal(o.value)`. -/
def Option.MarshalJSON {T : Type} (c : Codec T) (o : Option T) : String :=
  if !o.valid then "null" else encPtr c o.value

/-- Method `UnmarshalJSON` on receiver `o` with input `data`: returns the new state of
`*o` and the returned `error` (nil on success).  `"null"` sets `*o = None`;
otherwise the data is decoded into a `T`; on decode error the error is
returned and `*o` is not assigned; on success `*o = Some(value)`. -/
def Option.UnmarshalJSON {T : Type} (c : Codec T) (o : Option T) (data : String) :
    Option T × Ptr String :=
  if data = "null" then (None T, none)
  else
    match c.dec data with
    | .error e => (o, some e)
    | .ok v => (Some v, none)

/-- Method `String` (the `fmt.Stringer` method): `"None"` when not valid, else
`"Some(<%v of the value>)"`; `render` models `%v` on `T`.  (Declared after the
other `Option` methods so that the short name `String` inside them keeps
denoting the string type.) -/
def Option.String {T : Type} (o : Option T) (render : T → Str) :
    Except PanicVal Str :=
  if !o.valid then .ok "None"
  else (deref o.value).map (fun v => "Some(" ++ render v ++ ")")

/-!  ### Heap-level embedding of `Some` / `ToPtr` (for aliasing claims)

A heap is a `List T`; a pointer is an index into it (`Ptr Nat`, `none` = nil).
`someH` models `Some` (the `value: &value` allocation), `HOption.ToPtr` models
`v := *o.value; return &v` (a fresh allocation holding a copy).  -/

/-- Heap-level `Option[T]`: the `value *T` field is an address. -/
structure HOption (T : Type) where
  addr : Ptr Nat
  valid : Bool
deriving DecidableEq, Repr

/-- Read the pointee at address `a`. -/
def heapGet {T : Type} (h : List T) (a : Nat) : Ptr T :=
  h.get? a

/-- Write `w` through a pointer to address `a`. -/
def heapSet {T : Type} (h : List T) (a : Nat) (w : T) : List T :=
  h.set a w

/-- Heap-level `Some`: copies `value` into a fresh cell and stores its address. -/
def someH {T : Type} (value : T) (h : List T) : List T × HOption T :=
  (h ++ [value], { addr := some h.length, valid := true })

/-- Heap-level `ToPtr`: nil when no value; else reads `*o.value`, copies it
into a fresh cell `v`, and returns `&v`. -/
def HOption.ToPtr {T : Type} (o : HOption T) (h : List T) :
    Except PanicVal (List T × Ptr Nat) :=
  if !o.valid then .ok (h, none)
  else
    match o.addr with
    | none => .error .nilDeref
    | some a =>
      match h.get? a with
      | none => .error .nilDeref
      | some v => .ok (h ++ [v], some h.length)

/-!  ## Helper lemmas  -/

/-- Reading a heap of the form `l ++ v :: rest` at address `l.length` yields `v`. -/
theorem heapGet_append_cons {T : Type} (l : List T) (v : T) (rest : List T) :
    heapGet (l ++ v :: rest) l.length = some v := by
  induction l with
  | nil => rfl
  | cons a t ih => exact ih

/-- Writing `w` at address `l.length` of a heap `l ++ v :: rest` replaces `v`. -/
theorem heapSet_append_cons {T : Type} (l : List T) (v w : T) (rest : List T) :
    heapSet (l ++ v :: rest) l.length w = l ++ w :: rest := by
  induction l with
  | nil => rfl
  | cons a t ih => exact congrArg (List.cons a) ih

/-- A round-trippable JSON encoding of `Bool` in which the value `false`
encodes as the null literal.  Go permits such encodings: a custom
`MarshalJSON` may emit `null`, and for every pointer type the nil pointer
marshals to `null` and unmarshals back to nil. -/
def nullishCodec : Codec Bool where
  enc := fun b => if b then "true" else "null"
  dec := fun s =>
    if s = "null" then .ok false
    else if s = "true" then .ok true
    else .error "invalid"

/-- An ordinary round-trippable JSON encoding of `Bool` (no value encodes as
`null`), used to instantiate hypotheses at concrete inputs. -/
def boolCodec : Codec Bool where
  enc := fun b => if b then "true" else "false"
  dec := fun s =>
    if s = "true" then .ok true
    else if s = "false" then .ok false
    else .error "invalid boolean"

/-!  ## Claims  -/

/-- C1: for every `v`, `Some(v).Unwrap() = v`; and `None[T]().Unwrap()` panics
(with the `ErrNoValue` error) instead of returning any value of `T`. -/
theorem C1_option_unwrap {T : Type} (v : T) :
    (Some v).Unwrap = .ok v ∧
    (None T).Unwrap = .error (.errVal "option contains no value") ∧
    ∀ w : T, (None T).Unwrap ≠ .ok w := by
  refine ⟨rfl, rfl, fun w h => ?_⟩
  simp [Option.Unwrap, None] at h

/-- C2: `Ok(v).Unwrap() = v`; `Ok(v).UnwrapErr()` panics; `Err(e).UnwrapErr() = e`;
and `Err(e).Unwrap()` panics with a message carrying the rendering of the
wrapped error `e` as diagnostic context. -/
theorem C2_result_unwrap {T : Type} (v : T) (e : GoError) :
    (Ok v).Unwrap = .ok v ∧
    (Ok v).UnwrapErr = .error (.str "called unwrap_err on an ok result") ∧
    (Err (T := T) e).UnwrapErr = .ok e ∧
    (Err (T := T) e).Unwrap =
      .error (.str ("called unwrap on an error result: " ++ renderErr e)) ∧
    ∀ w : T, (Err (T := T) e).Unwrap ≠ .ok w := by
  refine ⟨rfl, rfl, rfl, rfl, fun w h => ?_⟩
  simp [Result.Unwrap, Err] at h

/-- C3 counterexample: the failure constructor `Err` accepts the nil error
(Go's `Err[T](nil)` compiles and runs), and the resulting Result is a failure
(`IsErr()` true) whose carried error value is null — contradicting the claim
that every failure reachable through the public constructors carries a
non-null error. -/
theorem C3_counterexample :
    (Err (T := Nat) none).IsErr = true ∧ (Err (T := Nat) none).err = none :=
  ⟨rfl, rfl⟩

/-- C3 (amended): every Result is in exactly one of the success and failure
states (`IsOk` is the negation of `IsErr`); `Err(e)` is a failure carrying
exactly the supplied error `e`, which is non-null whenever the supplied
argument is non-null — the constructor itself does not reject a null error. -/
theorem C3_exclusive_states {T : Type} (r : Result T) (e : GoError)
    (he : e ≠ none) :
    r.IsOk = !r.IsErr ∧
    (Err (T := T) e).IsErr = true ∧
    (Err (T := T) e).err = e ∧
    (Err (T := T) e).err ≠ none := by
  refine ⟨?_, rfl, rfl, he⟩
  simp [Result.IsOk, Result.IsErr]

/-- C3 witness: the amended claim instantiated at `r = Ok 5`, `e = some "boom"`. -/
theorem C3_exclusive_states_witness :
    (Ok (5 : Nat)).IsOk = !(Ok (5 : Nat)).IsErr ∧
    (Err (T := Nat) (some "boom")).IsErr = true ∧
    (Err (T := Nat) (some "boom")).err = some "boom" ∧
    (Err (T := Nat) (some "boom")).err ≠ none :=
  C3_exclusive_states (Ok 5) (some "boom") (by decide)

/-- C4: `FlatMap` and `FlatMapTo` on `Err(e)` short-circuit — the result is a
failure of the (possibly new) result type carrying the original error `e`,
independent of the supplied function; on `Ok(v)` they return exactly `f v`. -/
theorem C4_flatmap_shortcircuit {T U : Type} (v : T) (e : GoError)
    (f : T → Result T) (g : T → Result U) :
    (Err (T := T) e).FlatMap f = .ok (Err e) ∧
    FlatMapTo (Err (T := T) e) g = .ok (Err (T := U) e) ∧
    (Err (T := U) e).err = e ∧
    (Err (T := U) e).IsErr = true ∧
    (Ok v).FlatMap f = .ok (f v) ∧
    FlatMapTo (Ok v) g = .ok (g v) :=
  ⟨rfl, rfl, rfl, rfl, rfl, rfl⟩

/-- C5: `Some(v).ToResult(e)` is `Ok(v)` (a success unwrapping to `v`);
`None().ToResult(e)` is `Err(e)` (whose `UnwrapErr` is `e`); `Ok(v).ToOption()`
is `Some(v)` (present, unwrapping to `v`); `Err(e).ToOption()` is `None`
(absent, the error discarded). -/
theorem C5_conversions {T : Type} (v : T) (e : GoError) :
    (Some v).ToResult e = .ok (Ok v) ∧
    (Ok v).IsOk = true ∧
    (Ok v).Unwrap = .ok v ∧
    (None T).ToResult e = .ok (Err e) ∧
    (Err (T := T) e).UnwrapErr = .ok e ∧
    (Ok v).ToOption = .ok (Some v) ∧
    (Some v).IsSome = true ∧
    (Some v).Unwrap = .ok v ∧
    (Err (T := T) e).ToOption = .ok (None T) ∧
    (None T).IsNone = true :=
  ⟨rfl, rfl, rfl, rfl, rfl, rfl, rfl, rfl, rfl, rfl⟩

/-- C6: `Some(v).Map(f)` is the present Option `Some(f v)` with `Unwrap = f v`;
`None().Map(f)` is the absent Option `None` unchanged, and the result does not
depend on `f` (so `f` is never consulted on the absent path). -/
theorem C6_map_functor {T : Type} (v : T) (f g : T → T) :
    (Some v).Map f = .ok (Some (f v)) ∧
    (Some (f v)).IsSome = true ∧
    (Some (f v)).Unwrap = .ok (f v) ∧
    (None T).Map f = .ok (None T) ∧
    (None T).Map f = (None T).Map g :=
  ⟨rfl, rfl, rfl, rfl, rfl⟩

/-- C7 counterexample: `nullishCodec` is a round-trippable encoding of `Bool`
(its decoder inverts its encoder on every value), yet `Some false` marshals to
`"null"` (the encoding of `false`), and unmarshaling that very output yields
`None`, not `Some false` — so the round-trip claim fails as stated for a type
with a well-defined equality and a round-trippable encoding. -/
theorem C7_counterexample :
    (∀ b : Bool, nullishCodec.dec (nullishCodec.enc b) = .ok b) ∧
    Option.MarshalJSON nullishCodec (Some false) = nullishCodec.enc false ∧
    (Option.UnmarshalJSON nullishCodec (Some false)
        (Option.MarshalJSON nullishCodec (Some false))).1 = None Bool ∧
    None Bool ≠ Some false := by
  refine ⟨fun b => by cases b <;> rfl, rfl, rfl, by decide⟩

/-- C7 (amended): marshaling `Some v` always yields exactly the encoding of
`v`, marshaling `None` yields `null`, and unmarshaling `null` yields `None`;
and provided the encoding of `v` is not the null literal, unmarshaling the
output of marshaling `Some v` yields `Some v` again (for any round-trippable
codec of `T`). -/
theorem C7_json_roundtrip {T : Type} (c : Codec T) (o : Option T) (v : T)
    (hrt : ∀ u : T, c.dec (c.enc u) = .ok u) (hnn : c.enc v ≠ "null") :
    Option.MarshalJSON c (Some v) = c.enc v ∧
    Option.UnmarshalJSON c o (Option.MarshalJSON c (Some v)) = (Some v, none) ∧
    Option.MarshalJSON c (None T) = "null" ∧
    Option.UnmarshalJSON c o "null" = (None T, none) := by
  refine ⟨rfl, ?_, rfl, ?_⟩
  · simp [Option.MarshalJSON, Option.UnmarshalJSON, Some, encPtr, hnn, hrt v]
  · simp [Option.UnmarshalJSON]

/-- C7 witness: the amended claim instantiated at the `boolCodec` encoding,
`v = true`, receiver `o = Some false`. -/
theorem C7_json_roundtrip_witness :
    Option.MarshalJSON boolCodec (Some true) = boolCodec.enc true ∧
    Option.UnmarshalJSON boolCodec (Some false)
      (Option.MarshalJSON boolCodec (Some true)) = (Some true, none) ∧
    Option.MarshalJSON boolCodec (None Bool) = "null" ∧
    Option.UnmarshalJSON boolCodec (Some false) "null" = (None Bool, none) :=
  C7_json_roundtrip boolCodec (Some false) true
    (fun b => by cases b <;> rfl) (by decide)

/-- C8: `FromPtr` maps nil to `None` and a non-nil pointer to `Some` of the
pointee; `ToPtr` maps `None` to nil and `Some v` to a non-nil pointer whose
pointee equals `v`; and, at the heap level, the pointer `ToPtr` returns is a
fresh cell distinct from the Option's internal storage, so writing any `w`
through it leaves the internal cell still holding `v`. -/
theorem C8_ptr_bridge {T : Type} (h : List T) (v w : T) :
    FromPtr (T := T) none = None T ∧
    (∀ u : T, FromPtr (some u) = Some u) ∧
    (None T).ToPtr = .ok none ∧
    (Some v).ToPtr = .ok (some v) ∧
    someH v h = (h ++ [v], { addr := some h.length, valid := true }) ∧
    HOption.ToPtr { addr := some h.length, valid := true } (h ++ [v]) =
      .ok (h ++ [v] ++ [v], some (h ++ [v]).length) ∧
    some (h ++ [v]).length ≠ some h.length ∧
    heapGet (h ++ [v] ++ [v]) (h ++ [v]).length = some v ∧
    heapGet (heapSet (h ++ [v] ++ [v]) (h ++ [v]).length w) h.length = some v := by
  refine ⟨rfl, fun u => rfl, rfl, rfl, rfl, ?_, by simp, ?_, ?_⟩
  · simp [HOption.ToPtr,
      show (h ++ [v]).get? h.length = some v from heapGet_append_cons h v []]
  · exact heapGet_append_cons (h ++ [v]) v []
  · have h1 : heapSet (h ++ [v] ++ [v]) (h ++ [v]).length w = h ++ [v] ++ [w] :=
      heapSet_append_cons (h ++ [v]) v w []
    have h2 : h ++ [v] ++ [w] = h ++ v :: [w] := by simp
    rw [h1, h2]
    exact heapGet_append_cons h v [w]

/-- C9: the zero value of `Option[T]` (`var o Option[T]`) is structurally equal
to `None[T]()`, hence behaves identically under every observer; in particular
`IsSome` is false, `IsNone` is true, `UnwrapOr d = d`, `Unwrap` panics with
`ErrNoValue`, `String()` renders as `"None"`, and `MarshalJSON` yields `null`. -/
theorem C9_zero_value {T : Type} (d : T) (c : Codec T) (render : T → String) :
    zeroOption T = None T ∧
    (zeroOption T).IsSome = false ∧
    (zeroOption T).IsNone = true ∧
    (zeroOption T).UnwrapOr d = .ok d ∧
    (zeroOption T).Unwrap = .error (.errVal "option contains no value") ∧
    (zeroOption T).String render = .ok "None" ∧
    Option.MarshalJSON c (zeroOption T) = "null" :=
  ⟨rfl, rfl, rfl, rfl, rfl, rfl, rfl⟩

/-- C10: when the input is not the null literal and the decoder fails on it,
`UnmarshalJSON` returns the decode error and leaves the receiver's state
exactly as it was (present with its held value, or absent). -/
theorem C10_unmarshal_error_preserves {T : Type} (c : Codec T) (o : Option T)
    (data : String) (e : String)
    (hnu : data ≠ "null") (hde : c.dec data = .error e) :
    Option.UnmarshalJSON c o data = (o, some e) := by
  simp [Option.UnmarshalJSON, hnu, hde]

/-- C10 witness: decoding the non-null, ill-formed input `"oops"` with the
`boolCodec` leaves the receiver `Some true` unchanged and returns the error. -/
theorem C10_unmarshal_error_preserves_witness :
    Option.UnmarshalJSON boolCodec (Some true) "oops" =
      (Some true, some "invalid boolean") :=
  C10_unmarshal_error_preserves boolCodec (Some true) "oops" "invalid boolean"
    (by decide) rfl

end Jagain
